import Mathlib

/-!
Verification of the inference-server gateway (Rust) against its
natural-language specification.  The relevant Rust functions are embedded
shallowly: pure functions become Lean functions; the wall clock, fresh
UUIDs, the YAML parser, the random number generator and the upstream HTTP
server are passed in as explicit parameters or oracles; machine integers
(u8/u16/u32/u64) become Nat, f32/f64 become Rat (the code only compares
them, never computes with them); fallible code returns Except.
-/

set_option maxRecDepth 4000

/-- JSON values (serde_json::Value); objects keep insertion order as an
association list, numbers are modelled as rationals. -/
inductive Json where
  | null
  | bool (b : Bool)
  | num (q : ℚ)
  | str (s : String)
  | arr (xs : List Json)
  | obj (fields : List (String × Json))

/-- Value::as_f64: numbers convert, everything else is None
(src/services/inference-server/src/validations.rs uses it on logit-bias
values). -/
def Json.as_f64 : Json → Option ℚ
  | .num q => some q
  | _ => none

/-- Message roles (Role enum used by providers/mod.rs). -/
inductive Role where
  | System
  | User
  | Assistant
  | Tool
deriving DecidableEq

/-- FinishReason enum (models.rs revision used by providers/mod.rs and
providers/mock.rs). -/
inductive FinishReason where
  | Stop
  | Length
  | ToolCalls
  | ContentFilter
  | FunctionCall
deriving DecidableEq

/-- models.rs FunctionCall. -/
structure FunctionCallData where
  name : String
  arguments : String
deriving DecidableEq

/-- models.rs ToolCall. -/
structure ToolCall where
  id : String
  tool_type : String
  function : FunctionCallData
deriving DecidableEq

/-- models.rs LogProbs (internals are never inspected by the functions
under verification; content entries are token/logprob pairs). -/
structure LogProbs where
  content : Option (List (String × ℚ))
deriving DecidableEq

/-- models.rs Message (typed-role revision used by providers/mod.rs). -/
structure Message where
  role : Role
  content : Option String
  name : Option String
  tool_calls : Option (List ToolCall)
  tool_call_id : Option String
  function_call : Option FunctionCallData
  refusal : Option String
deriving DecidableEq

/-- Message::new(role, content): content set, all other optionals None. -/
def Message.new (role : Role) (content : String) : Message :=
  { role := role, content := some content, name := none, tool_calls := none,
    tool_call_id := none, function_call := none, refusal := none }

/-- models.rs ResponseMode. -/
inductive ResponseMode where
  | Standard
  | Extended
deriving DecidableEq

/-- models.rs ResponseFormat. -/
structure ResponseFormat where
  format_type : String
deriving DecidableEq

/-- models.rs StringOrArray (stop sequences). -/
inductive StringOrArray where
  | string (s : String)
  | array (a : List String)
deriving DecidableEq

/-- models.rs CompletionRequest.  The tool-calling pass-through fields
(tools, tool_choice, functions, function_call) are never read by any
function under verification and are modelled as opaque presence flags. -/
structure CompletionRequest where
  messages : List Message
  model : Option String
  response_mode : Option ResponseMode
  extensions : Option (List (String × Json))
  frequency_penalty : Option ℚ
  logit_bias : Option (List (String × Json))
  logprobs : Option Bool
  top_logprobs : Option Nat
  max_tokens : Option Nat
  n : Option Nat
  presence_penalty : Option ℚ
  response_format : Option ResponseFormat
  seed : Option Nat
  stop : Option StringOrArray
  stream : Option Bool
  temperature : Option ℚ
  top_p : Option ℚ
  tools : Option Unit
  tool_choice : Option Unit
  functions : Option Unit
  function_call : Option Unit
  user : Option String

/-- mock.rs parse_finish_reason: parse a finish_reason string into the
typed enum, defaulting to Stop for unknown values. -/
def parse_finish_reason (s : String) : FinishReason :=
  if s = "stop" then .Stop
  else if s = "length" then .Length
  else if s = "tool_calls" then .ToolCalls
  else if s = "content_filter" then .ContentFilter
  else if s = "function_call" then .FunctionCall
  else .Stop

/-- C10: parse_finish_reason is total on strings: it maps "stop",
"length", "tool_calls", "content_filter" and "function_call" to the
corresponding FinishReason variants, and maps every other string to Stop
rather than raising an error. -/
theorem parse_finish_reason_total :
    parse_finish_reason "stop" = .Stop ∧
    parse_finish_reason "length" = .Length ∧
    parse_finish_reason "tool_calls" = .ToolCalls ∧
    parse_finish_reason "content_filter" = .ContentFilter ∧
    parse_finish_reason "function_call" = .FunctionCall ∧
    ∀ s : String,
      s ∉ ["length", "tool_calls", "content_filter", "function_call"] →
      parse_finish_reason s = .Stop := by
  refine ⟨rfl, rfl, rfl, rfl, rfl, ?_⟩
  intro s hs
  simp only [List.mem_cons, List.mem_singleton, not_or] at hs
  obtain ⟨h1, h2, h3, h4⟩ := hs
  unfold parse_finish_reason
  by_cases h0 : s = "stop" <;> simp [h0, h1, h2, h3, h4]

/-- Witness for C10: a misspelled finish_reason maps to Stop. -/
theorem parse_finish_reason_total_witness :
    parse_finish_reason "sto" = .Stop :=
  parse_finish_reason_total.2.2.2.2.2 "sto" (by decide)

/-! ### validations.rs -/

/-- validations.rs ValidationError. -/
inductive ValidationError where
  | EmptyMessages
  | NoContent
  | InvalidMaxTokens (v : Nat)
  | InvalidTemperature (q : ℚ)
  | InvalidTopP (q : ℚ)
  | InvalidFrequencyPenalty (q : ℚ)
  | InvalidPresencePenalty (q : ℚ)
  | InvalidTopLogprobs (v : Nat)
  | InvalidN (v : Nat)
  | ModelNotInAllowedList (model : String) (allowed : List String)
  | StreamingNotSupported
  | InvalidLogitBias (token_id : String) (reason : String)
deriving DecidableEq

/-- Value of an ASCII digit string read in base 10. -/
def digits_to_nat (ds : List Char) : Nat :=
  ds.foldl (fun acc c => acc * 10 + (c.toNat - 48)) 0

/-- token_id.parse::<i64>().is_ok(): optional sign, then one or more
ASCII digits, value within the i64 range. -/
def parses_as_i64 (s : String) : Bool :=
  match s.data with
  | [] => false
  | c :: rest =>
    let ds := if c = '+' || c = '-' then rest else c :: rest
    (!ds.isEmpty) && ds.all Char.isDigit &&
      (if c = '-' then digits_to_nat ds ≤ 9223372036854775808
       else digits_to_nat ds ≤ 9223372036854775807)

/-- validate_completion_request: max_tokens check
(`max_tokens == 0 || max_tokens > 128000`). -/
def check_max_tokens (r : CompletionRequest) : Except ValidationError Unit :=
  match r.max_tokens with
  | some v => if v = 0 ∨ 128000 < v then .error (.InvalidMaxTokens v) else .ok ()
  | none => .ok ()

/-- validate_completion_request: temperature check
(`!(0.0..=2.0).contains(&temperature)`). -/
def check_temperature (r : CompletionRequest) : Except ValidationError Unit :=
  match r.temperature with
  | some q => if ¬(0 ≤ q ∧ q ≤ 2) then .error (.InvalidTemperature q) else .ok ()
  | none => .ok ()

/-- validate_completion_request: top_p check (`!(0.0..=1.0).contains`). -/
def check_top_p (r : CompletionRequest) : Except ValidationError Unit :=
  match r.top_p with
  | some q => if ¬(0 ≤ q ∧ q ≤ 1) then .error (.InvalidTopP q) else .ok ()
  | none => .ok ()

/-- validate_completion_request: frequency_penalty check
(`!(-2.0..=2.0).contains`). -/
def check_frequency_penalty (r : CompletionRequest) : Except ValidationError Unit :=
  match r.frequency_penalty with
  | some q => if ¬(-2 ≤ q ∧ q ≤ 2) then .error (.InvalidFrequencyPenalty q) else .ok ()
  | none => .ok ()

/-- validate_completion_request: presence_penalty check
(`!(-2.0..=2.0).contains`). -/
def check_presence_penalty (r : CompletionRequest) : Except ValidationError Unit :=
  match r.presence_penalty with
  | some q => if ¬(-2 ≤ q ∧ q ≤ 2) then .error (.InvalidPresencePenalty q) else .ok ()
  | none => .ok ()

/-- validate_completion_request: top_logprobs check (`top_logprobs > 20`). -/
def check_top_logprobs (r : CompletionRequest) : Except ValidationError Unit :=
  match r.top_logprobs with
  | some v => if 20 < v then .error (.InvalidTopLogprobs v) else .ok ()
  | none => .ok ()

/-- validate_completion_request: n check (`n == 0 || n > 10`). -/
def check_n (r : CompletionRequest) : Except ValidationError Unit :=
  match r.n with
  | some v => if v = 0 ∨ 10 < v then .error (.InvalidN v) else .ok ()
  | none => .ok ()

/-- validate_completion_request: the logit_bias loop body, one entry at a
time: the key must parse as an i64 and the value must be a number in
-100..=100. -/
def check_logit_bias_entries : List (String × Json) → Except ValidationError Unit
  | [] => .ok ()
  | (token_id, bias_value) :: rest =>
    if parses_as_i64 token_id = false then
      .error (.InvalidLogitBias token_id "token ID must be a numeric string")
    else
      match bias_value.as_f64 with
      | some bias =>
        if ¬(-100 ≤ bias ∧ bias ≤ 100) then
          .error (.InvalidLogitBias token_id "bias value must be between -100 and 100")
        else check_logit_bias_entries rest
      | none => .error (.InvalidLogitBias token_id "bias value must be a number")

/-- validate_completion_request: the logit_bias check (absent map passes). -/
def check_logit_bias (r : CompletionRequest) : Except ValidationError Unit :=
  match r.logit_bias with
  | some entries => check_logit_bias_entries entries
  | none => .ok ()

/-- Whether some message has content, tool_calls, or tool_call_id
(the `has_content` test in validate_completion_request). -/
def messages_have_content (messages : List Message) : Bool :=
  messages.any fun m => m.content.isSome || m.tool_calls.isSome || m.tool_call_id.isSome

/-- validations.rs validate_completion_request: empty-messages check,
content check, then the numeric-range and logit-bias checks in source
order with early return. -/
def validate_completion_request (r : CompletionRequest) : Except ValidationError Unit :=
  if r.messages = [] then .error .EmptyMessages
  else if messages_have_content r.messages = false then .error .NoContent
  else do
    check_max_tokens r
    check_temperature r
    check_top_p r
    check_frequency_penalty r
    check_presence_penalty r
    check_top_logprobs r
    check_n r
    check_logit_bias r

/-- validations.rs validate_model_allowed: when an allow-list is
configured, absence from it is ModelNotInAllowedList. -/
def validate_model_allowed (requested_model : String)
    (allowed_models : Option (List String)) : Except ValidationError Unit :=
  match allowed_models with
  | some allowed =>
    if allowed.contains requested_model = false then
      .error (.ModelNotInAllowedList requested_model allowed)
    else .ok ()
  | none => .ok ()

/-- validations.rs validate_provider_capabilities: stream=true with a
non-streaming provider is StreamingNotSupported. -/
def validate_provider_capabilities (r : CompletionRequest)
    (supports_streaming : Bool) : Except ValidationError Unit :=
  if r.stream = some true ∧ supports_streaming = false then
    .error .StreamingNotSupported
  else .ok ()

/-- validations.rs determine_model: requested model (checked against the
allow-list) if present, else the default. -/
def determine_model (requested_model : Option String) (default_model : String)
    (allowed_models : Option (List String)) : Except ValidationError String :=
  match requested_model with
  | some model => do
    validate_model_allowed model allowed_models
    pure model
  | none => pure default_model

/-! ### C5: numeric-range behaviour of validate_completion_request -/

theorem except_seq_ok_iff {ε : Type} (a b : Except ε Unit) :
    (a >>= fun _ => b) = .ok () ↔ a = .ok () ∧ b = .ok () := by
  cases a with
  | ok u => cases u; simp [Bind.bind, Except.bind]
  | error e => simp [Bind.bind, Except.bind]

theorem except_seq_error_left {ε : Type} (a b : Except ε Unit) (e : ε)
    (h : a = .error e) : (a >>= fun _ => b) = .error e := by
  subst h; rfl

theorem except_seq_cont {ε : Type} (a b : Except ε Unit)
    (h : a = .ok ()) : (a >>= fun _ => b) = b := by
  subst h; rfl

theorem check_max_tokens_ok_iff (r : CompletionRequest) :
    check_max_tokens r = .ok () ↔ ∀ v, r.max_tokens = some v → 1 ≤ v ∧ v ≤ 128000 := by
  cases h : r.max_tokens with
  | none => simp [check_max_tokens, h]
  | some v =>
    simp only [check_max_tokens, h, Option.some.injEq]
    split_ifs with hv
    · constructor
      · intro hfalse; cases hfalse
      · intro hall; have := hall v rfl; omega
    · constructor
      · intro _ w hw; cases hw; omega
      · intro _; rfl

theorem check_temperature_ok_iff (r : CompletionRequest) :
    check_temperature r = .ok () ↔ ∀ q, r.temperature = some q → 0 ≤ q ∧ q ≤ 2 := by
  cases h : r.temperature with
  | none => simp [check_temperature, h]
  | some q =>
    simp only [check_temperature, h, Option.some.injEq]
    split_ifs with hq
    · constructor
      · intro _ w hw; cases hw; exact hq
      · intro _; rfl
    · constructor
      · intro hfalse; cases hfalse
      · intro hall; exact absurd (hall q rfl) hq

theorem check_top_p_ok_iff (r : CompletionRequest) :
    check_top_p r = .ok () ↔ ∀ q, r.top_p = some q → 0 ≤ q ∧ q ≤ 1 := by
  cases h : r.top_p with
  | none => simp [check_top_p, h]
  | some q =>
    simp only [check_top_p, h, Option.some.injEq]
    split_ifs with hq
    · constructor
      · intro _ w hw; cases hw; exact hq
      · intro _; rfl
    · constructor
      · intro hfalse; cases hfalse
      · intro hall; exact absurd (hall q rfl) hq

theorem check_frequency_penalty_ok_iff (r : CompletionRequest) :
    check_frequency_penalty r = .ok () ↔
      ∀ q, r.frequency_penalty = some q → -2 ≤ q ∧ q ≤ 2 := by
  cases h : r.frequency_penalty with
  | none => simp [check_frequency_penalty, h]
  | some q =>
    simp only [check_frequency_penalty, h, Option.some.injEq]
    split_ifs with hq
    · constructor
      · intro _ w hw; cases hw; exact hq
      · intro _; rfl
    · constructor
      · intro hfalse; cases hfalse
      · intro hall; exact absurd (hall q rfl) hq

theorem check_presence_penalty_ok_iff (r : CompletionRequest) :
    check_presence_penalty r = .ok () ↔
      ∀ q, r.presence_penalty = some q → -2 ≤ q ∧ q ≤ 2 := by
  cases h : r.presence_penalty with
  | none => simp [check_presence_penalty, h]
  | some q =>
    simp only [check_presence_penalty, h, Option.some.injEq]
    split_ifs with hq
    · constructor
      · intro _ w hw; cases hw; exact hq
      · intro _; rfl
    · constructor
      · intro hfalse; cases hfalse
      · intro hall; exact absurd (hall q rfl) hq

theorem check_top_logprobs_ok_iff (r : CompletionRequest) :
    check_top_logprobs r = .ok () ↔ ∀ v, r.top_logprobs = some v → v ≤ 20 := by
  cases h : r.top_logprobs with
  | none => simp [check_top_logprobs, h]
  | some v =>
    simp only [check_top_logprobs, h, Option.some.injEq]
    split_ifs with hv
    · constructor
      · intro hfalse; cases hfalse
      · intro hall; have := hall v rfl; omega
    · constructor
      · intro _ w hw; cases hw; omega
      · intro _; rfl

theorem check_n_ok_iff (r : CompletionRequest) :
    check_n r = .ok () ↔ ∀ v, r.n = some v → 1 ≤ v ∧ v ≤ 10 := by
  cases h : r.n with
  | none => simp [check_n, h]
  | some v =>
    simp only [check_n, h, Option.some.injEq]
    split_ifs with hv
    · constructor
      · intro hfalse; cases hfalse
      · intro hall; have := hall v rfl; omega
    · constructor
      · intro _ w hw; cases hw; omega
      · intro _; rfl

theorem check_logit_bias_entries_ok_iff (l : List (String × Json)) :
    check_logit_bias_entries l = .ok () ↔
      ∀ kv ∈ l, parses_as_i64 kv.1 = true ∧
        ∃ q, kv.2.as_f64 = some q ∧ -100 ≤ q ∧ q ≤ 100 := by
  induction l with
  | nil => simp [check_logit_bias_entries]
  | cons kv rest ih =>
    obtain ⟨k, v⟩ := kv
    simp only [check_logit_bias_entries]
    split_ifs with hp
    · constructor
      · intro hfalse; cases hfalse
      · intro hall
        have := (hall (k, v) (List.mem_cons_self _ _)).1
        simp only at this
        rw [this] at hp; cases hp
    · cases hv : v.as_f64 with
      | none =>
        dsimp only
        constructor
        · intro hfalse; cases hfalse
        · intro hall
          obtain ⟨q, hq, -⟩ := (hall (k, v) (List.mem_cons_self _ _)).2
          simp only at hq
          rw [hv] at hq; cases hq
      | some q =>
        dsimp only
        split_ifs with hr
        · rw [ih]
          constructor
          · intro hrest kv2 hkv2
            rcases List.mem_cons.mp hkv2 with heq | hmem
            · subst heq
              refine ⟨by simpa using Bool.not_eq_false _ |>.mp hp, q, hv, hr⟩
            · exact hrest kv2 hmem
          · intro hall kv2 hkv2
            exact hall kv2 (List.mem_cons_of_mem _ hkv2)
        · constructor
          · intro hfalse; cases hfalse
          · intro hall
            obtain ⟨q2, hq2, hq2r⟩ := (hall (k, v) (List.mem_cons_self _ _)).2
            simp only at hq2
            rw [hv] at hq2; cases hq2
            exact hr hq2r

theorem check_logit_bias_entries_error_shape (l : List (String × Json))
    (e : ValidationError) (h : check_logit_bias_entries l = .error e) :
    ∃ k s, e = .InvalidLogitBias k s := by
  induction l with
  | nil => cases h
  | cons kv rest ih =>
    obtain ⟨k, v⟩ := kv
    simp only [check_logit_bias_entries] at h
    split_ifs at h with hp
    · cases h; exact ⟨k, _, rfl⟩
    · cases hv : v.as_f64 with
      | none => rw [hv] at h; cases h; exact ⟨k, _, rfl⟩
      | some q =>
        rw [hv] at h
        dsimp only at h
        split_ifs at h with hr
        · exact ih h
        · cases h; exact ⟨k, _, rfl⟩

theorem check_logit_bias_ok_iff (r : CompletionRequest) :
    check_logit_bias r = .ok () ↔
      ∀ kv ∈ r.logit_bias.getD [], parses_as_i64 kv.1 = true ∧
        ∃ q, kv.2.as_f64 = some q ∧ -100 ≤ q ∧ q ≤ 100 := by
  cases h : r.logit_bias with
  | none => simp [check_logit_bias, h]
  | some l => simp [check_logit_bias, h, check_logit_bias_entries_ok_iff]

theorem check_logit_bias_error_shape (r : CompletionRequest) (e : ValidationError)
    (h : check_logit_bias r = .error e) : ∃ k s, e = .InvalidLogitBias k s := by
  cases hl : r.logit_bias with
  | none => rw [check_logit_bias, hl] at h; cases h
  | some l =>
    rw [check_logit_bias, hl] at h
    exact check_logit_bias_entries_error_shape l e h

theorem check_max_tokens_err (r : CompletionRequest) (v : Nat)
    (h : r.max_tokens = some v) (hout : ¬(1 ≤ v ∧ v ≤ 128000)) :
    check_max_tokens r = .error (.InvalidMaxTokens v) := by
  simp only [check_max_tokens, h]
  rw [if_pos]; omega

theorem check_temperature_err (r : CompletionRequest) (q : ℚ)
    (h : r.temperature = some q) (hout : ¬(0 ≤ q ∧ q ≤ 2)) :
    check_temperature r = .error (.InvalidTemperature q) := by
  simp only [check_temperature, h]
  rw [if_pos hout]

theorem check_top_p_err (r : CompletionRequest) (q : ℚ)
    (h : r.top_p = some q) (hout : ¬(0 ≤ q ∧ q ≤ 1)) :
    check_top_p r = .error (.InvalidTopP q) := by
  simp only [check_top_p, h]
  rw [if_pos hout]

theorem check_frequency_penalty_err (r : CompletionRequest) (q : ℚ)
    (h : r.frequency_penalty = some q) (hout : ¬(-2 ≤ q ∧ q ≤ 2)) :
    check_frequency_penalty r = .error (.InvalidFrequencyPenalty q) := by
  simp only [check_frequency_penalty, h]
  rw [if_pos hout]

theorem check_presence_penalty_err (r : CompletionRequest) (q : ℚ)
    (h : r.presence_penalty = some q) (hout : ¬(-2 ≤ q ∧ q ≤ 2)) :
    check_presence_penalty r = .error (.InvalidPresencePenalty q) := by
  simp only [check_presence_penalty, h]
  rw [if_pos hout]

theorem check_top_logprobs_err (r : CompletionRequest) (v : Nat)
    (h : r.top_logprobs = some v) (hout : ¬(v ≤ 20)) :
    check_top_logprobs r = .error (.InvalidTopLogprobs v) := by
  simp only [check_top_logprobs, h]
  rw [if_pos]; omega

theorem check_n_err (r : CompletionRequest) (v : Nat)
    (h : r.n = some v) (hout : ¬(1 ≤ v ∧ v ≤ 10)) :
    check_n r = .error (.InvalidN v) := by
  simp only [check_n, h]
  rw [if_pos]; omega

/-- C5: for every request with non-empty messages of which at least one has
content, tool_calls, or tool_call_id, validate_completion_request accepts
each bounded numeric field at both inclusive endpoints of its range and
rejects, with the field-specific error variant, every present value
strictly outside it (max_tokens 1..128000, temperature 0..2, top_p 0..1,
frequency_penalty -2..2, presence_penalty -2..2, top_logprobs 0..20,
n 1..10, logit_bias keys parse as i64 with numeric values in -100..100);
absent fields are never rejected. -/
theorem validate_completion_request_bounds (r : CompletionRequest)
    (hne : r.messages ≠ [])
    (hc : messages_have_content r.messages = true) :
    (validate_completion_request r = .ok () ↔
      ((∀ v, r.max_tokens = some v → 1 ≤ v ∧ v ≤ 128000) ∧
       (∀ q, r.temperature = some q → 0 ≤ q ∧ q ≤ 2) ∧
       (∀ q, r.top_p = some q → 0 ≤ q ∧ q ≤ 1) ∧
       (∀ q, r.frequency_penalty = some q → -2 ≤ q ∧ q ≤ 2) ∧
       (∀ q, r.presence_penalty = some q → -2 ≤ q ∧ q ≤ 2) ∧
       (∀ v, r.top_logprobs = some v → v ≤ 20) ∧
       (∀ v, r.n = some v → 1 ≤ v ∧ v ≤ 10) ∧
       (∀ kv ∈ r.logit_bias.getD [], parses_as_i64 kv.1 = true ∧
         ∃ q, kv.2.as_f64 = some q ∧ -100 ≤ q ∧ q ≤ 100))) ∧
    (∀ v, r.max_tokens = some v → ¬(1 ≤ v ∧ v ≤ 128000) →
      validate_completion_request r = .error (.InvalidMaxTokens v)) ∧
    (∀ q, r.temperature = some q → check_max_tokens r = .ok () →
      ¬(0 ≤ q ∧ q ≤ 2) →
      validate_completion_request r = .error (.InvalidTemperature q)) ∧
    (∀ q, r.top_p = some q → check_max_tokens r = .ok () →
      check_temperature r = .ok () → ¬(0 ≤ q ∧ q ≤ 1) →
      validate_completion_request r = .error (.InvalidTopP q)) ∧
    (∀ q, r.frequency_penalty = some q → check_max_tokens r = .ok () →
      check_temperature r = .ok () → check_top_p r = .ok () →
      ¬(-2 ≤ q ∧ q ≤ 2) →
      validate_completion_request r = .error (.InvalidFrequencyPenalty q)) ∧
    (∀ q, r.presence_penalty = some q → check_max_tokens r = .ok () →
      check_temperature r = .ok () → check_top_p r = .ok () →
      check_frequency_penalty r = .ok () → ¬(-2 ≤ q ∧ q ≤ 2) →
      validate_completion_request r = .error (.InvalidPresencePenalty q)) ∧
    (∀ v, r.top_logprobs = some v → check_max_tokens r = .ok () →
      check_temperature r = .ok () → check_top_p r = .ok () →
      check_frequency_penalty r = .ok () → check_presence_penalty r = .ok () →
      ¬(v ≤ 20) →
      validate_completion_request r = .error (.InvalidTopLogprobs v)) ∧
    (∀ v, r.n = some v → check_max_tokens r = .ok () →
      check_temperature r = .ok () → check_top_p r = .ok () →
      check_frequency_penalty r = .ok () → check_presence_penalty r = .ok () →
      check_top_logprobs r = .ok () → ¬(1 ≤ v ∧ v ≤ 10) →
      validate_completion_request r = .error (.InvalidN v)) ∧
    (check_max_tokens r = .ok () → check_temperature r = .ok () →
      check_top_p r = .ok () → check_frequency_penalty r = .ok () →
      check_presence_penalty r = .ok () → check_top_logprobs r = .ok () →
      check_n r = .ok () → check_logit_bias r ≠ .ok () →
      ∃ k s, validate_completion_request r = .error (.InvalidLogitBias k s)) := by
  have hv : validate_completion_request r =
      (check_max_tokens r >>= fun _ => check_temperature r >>= fun _ =>
       check_top_p r >>= fun _ => check_frequency_penalty r >>= fun _ =>
       check_presence_penalty r >>= fun _ => check_top_logprobs r >>= fun _ =>
       check_n r >>= fun _ => check_logit_bias r) := by
    simp only [validate_completion_request, hne, hc]
    rfl
  refine ⟨?_, ?_, ?_, ?_, ?_, ?_, ?_, ?_, ?_⟩
  · rw [hv]
    simp only [except_seq_ok_iff]
    rw [check_max_tokens_ok_iff, check_temperature_ok_iff, check_top_p_ok_iff,
      check_frequency_penalty_ok_iff, check_presence_penalty_ok_iff,
      check_top_logprobs_ok_iff, check_n_ok_iff, check_logit_bias_ok_iff]
  · intro v h hout
    rw [hv]
    exact except_seq_error_left _ _ _ (check_max_tokens_err r v h hout)
  · intro q h h1 hout
    rw [hv, except_seq_cont _ _ h1]
    exact except_seq_error_left _ _ _ (check_temperature_err r q h hout)
  · intro q h h1 h2 hout
    rw [hv, except_seq_cont _ _ h1, except_seq_cont _ _ h2]
    exact except_seq_error_left _ _ _ (check_top_p_err r q h hout)
  · intro q h h1 h2 h3 hout
    rw [hv, except_seq_cont _ _ h1, except_seq_cont _ _ h2, except_seq_cont _ _ h3]
    exact except_seq_error_left _ _ _ (check_frequency_penalty_err r q h hout)
  · intro q h h1 h2 h3 h4 hout
    rw [hv, except_seq_cont _ _ h1, except_seq_cont _ _ h2, except_seq_cont _ _ h3,
      except_seq_cont _ _ h4]
    exact except_seq_error_left _ _ _ (check_presence_penalty_err r q h hout)
  · intro v h h1 h2 h3 h4 h5 hout
    rw [hv, except_seq_cont _ _ h1, except_seq_cont _ _ h2, except_seq_cont _ _ h3,
      except_seq_cont _ _ h4, except_seq_cont _ _ h5]
    exact except_seq_error_left _ _ _ (check_top_logprobs_err r v h hout)
  · intro v h h1 h2 h3 h4 h5 h6 hout
    rw [hv, except_seq_cont _ _ h1, except_seq_cont _ _ h2, except_seq_cont _ _ h3,
      except_seq_cont _ _ h4, except_seq_cont _ _ h5, except_seq_cont _ _ h6]
    exact except_seq_error_left _ _ _ (check_n_err r v h hout)
  · intro h1 h2 h3 h4 h5 h6 h7 hlb
    cases he : check_logit_bias r with
    | ok u => cases u; exact absurd he hlb
    | error e =>
      obtain ⟨k, s, rfl⟩ := check_logit_bias_error_shape r e he
      refine ⟨k, s, ?_⟩
      rw [hv, except_seq_cont _ _ h1, except_seq_cont _ _ h2, except_seq_cont _ _ h3,
        except_seq_cont _ _ h4, except_seq_cont _ _ h5, except_seq_cont _ _ h6,
        except_seq_cont _ _ h7]
      exact he

/-- Concrete request exercising every bounded field at an endpoint of its
range. -/
def c5WitnessRequest : CompletionRequest :=
  { messages := [Message.new .User "hi"]
    model := none
    response_mode := none
    extensions := none
    frequency_penalty := some (-2)
    logit_bias := some [("123", Json.num (-100)), ("+45", Json.num 100)]
    logprobs := none
    top_logprobs := some 20
    max_tokens := some 128000
    n := some 10
    presence_penalty := some 2
    response_format := none
    seed := none
    stop := none
    stream := none
    temperature := some 2
    top_p := some 1
    tools := none
    tool_choice := none
    functions := none
    function_call := none
    user := none }

/-- Witness for C5: the endpoint request is accepted. -/
theorem validate_completion_request_bounds_witness :
    validate_completion_request c5WitnessRequest = .ok () := by
  apply (validate_completion_request_bounds c5WitnessRequest (by decide) (by decide)).1.mpr
  refine ⟨?_, ?_, ?_, ?_, ?_, ?_, ?_, ?_⟩
  · intro v h
    simp only [c5WitnessRequest, Option.some.injEq] at h
    omega
  · intro q h
    simp only [c5WitnessRequest, Option.some.injEq] at h
    rw [← h]; norm_num
  · intro q h
    simp only [c5WitnessRequest, Option.some.injEq] at h
    rw [← h]; norm_num
  · intro q h
    simp only [c5WitnessRequest, Option.some.injEq] at h
    rw [← h]; norm_num
  · intro q h
    simp only [c5WitnessRequest, Option.some.injEq] at h
    rw [← h]; norm_num
  · intro v h
    simp only [c5WitnessRequest, Option.some.injEq] at h
    omega
  · intro v h
    simp only [c5WitnessRequest, Option.some.injEq] at h
    omega
  · intro kv hkv
    simp only [c5WitnessRequest, Option.getD, List.mem_cons, List.not_mem_nil,
      or_false] at hkv
    rcases hkv with rfl | rfl
    · exact ⟨by decide, ⟨-100, rfl, by norm_num, by norm_num⟩⟩
    · exact ⟨by decide, ⟨100, rfl, by norm_num, by norm_num⟩⟩

/-! ### providers/mod.rs: error type, streaming utilities -/

/-- providers/mod.rs ProviderError. -/
inductive ProviderError where
  | ConnectionFailed (msg : String)
  | InvalidResponse (msg : String)
  | ModelNotAvailable (requested : String) (available : List String)
  | RequestFailed (status : Nat) (message : String)
  | Timeout
  | Configuration (msg : String)
  | StreamingNotSupported
  | StreamError (msg : String)
  | InvalidExtension (param : String) (reason : String)
deriving DecidableEq

/-- fmt::Display for ProviderError (e.to_string(); interpolation is
modelled with string concatenation). -/
def provider_error_message : ProviderError → String
  | .ConnectionFailed msg => "Connection failed: " ++ msg
  | .InvalidResponse msg => "Invalid response: " ++ msg
  | .ModelNotAvailable requested available =>
      "Model " ++ requested ++ " not available. Available models: " ++
        String.intercalate ", " available
  | .RequestFailed status message =>
      "Request failed with status " ++ toString status ++ ": " ++ message
  | .Timeout => "Request timed out"
  | .Configuration msg => "Configuration error: " ++ msg
  | .StreamingNotSupported => "Streaming is not supported by this provider"
  | .StreamError msg => "Streaming error: " ++ msg
  | .InvalidExtension param reason =>
      "Invalid extension parameter " ++ param ++ ": " ++ reason

/-- models.rs Usage (all token counts optional). -/
structure Usage where
  prompt_tokens : Option Nat
  completion_tokens : Option Nat
  total_tokens : Option Nat
deriving DecidableEq

/-- models.rs Delta (streaming message fragment). -/
structure Delta where
  role : Option Role
  content : Option String
  tool_calls : Option (List ToolCall)
  refusal : Option String
deriving DecidableEq

/-- Delta::default(): all fields None. -/
def Delta.default : Delta :=
  { role := none, content := none, tool_calls := none, refusal := none }

/-- models.rs StreamChoice. -/
structure StreamChoice where
  index : Nat
  delta : Delta
  finish_reason : Option FinishReason
  logprobs : Option LogProbs
deriving DecidableEq

/-- models.rs StreamChunk. -/
structure StreamChunk where
  id : String
  object : String
  created : Nat
  model : String
  choices : List StreamChoice
  system_fingerprint : Option String
  usage : Option Usage
deriving DecidableEq

/-- str::split_whitespace worker: maximal runs of non-whitespace
characters, in order, no empty items. -/
def split_whitespace_aux : List Char → List Char → List String
  | [], acc => if acc.isEmpty then [] else [String.mk acc.reverse]
  | c :: cs, acc =>
    if c.isWhitespace then
      if acc.isEmpty then split_whitespace_aux cs []
      else String.mk acc.reverse :: split_whitespace_aux cs []
    else split_whitespace_aux cs (c :: acc)

/-- text.split_whitespace() as used by tokenize_for_streaming. -/
def split_whitespace (s : String) : List String :=
  split_whitespace_aux s.data []

/-- providers/mod.rs tokenize_for_streaming: one "word " per
whitespace-separated word. -/
def tokenize_for_streaming (text : String) : List String :=
  (split_whitespace text).map (fun word => word ++ " ")

/-- providers/mod.rs create_first_chunk; the SystemTime::now() timestamp
is passed in as `created`. -/
def create_first_chunk (created : Nat) (id model : String) (role : Role) : StreamChunk :=
  { id := id
    object := "chat.completion.chunk"
    created := created
    model := model
    choices := [{ index := 0
                  delta := { role := some role, content := none,
                             tool_calls := none, refusal := none }
                  finish_reason := none
                  logprobs := none }]
    system_fingerprint := none
    usage := none }

/-- providers/mod.rs create_content_chunk; timestamp passed in. -/
def create_content_chunk (created : Nat) (id model content : String) : StreamChunk :=
  { id := id
    object := "chat.completion.chunk"
    created := created
    model := model
    choices := [{ index := 0
                  delta := { role := none, content := some content,
                             tool_calls := none, refusal := none }
                  finish_reason := none
                  logprobs := none }]
    system_fingerprint := none
    usage := none }

/-- providers/mod.rs create_final_chunk; timestamp passed in. -/
def create_final_chunk (created : Nat) (id model : String)
    (finish_reason : FinishReason) (usage : Option Usage) : StreamChunk :=
  { id := id
    object := "chat.completion.chunk"
    created := created
    model := model
    choices := [{ index := 0
                  delta := Delta.default
                  finish_reason := some finish_reason
                  logprobs := none }]
    system_fingerprint := none
    usage := usage }

/-! ### providers/mock.rs: the fabricated token stream (C1) -/

/-- MockProvider::stream chunk sequence: the enumerated token stream
(index 0 becomes the role chunk, every later index a content chunk
carrying its token) chained with the final chunk carrying finish_reason
and optional usage.  Timestamps, the per-stream request id and the model
name are parameters; the per-chunk delays do not affect the sequence. -/
def mock_stream_chunks (created : Nat) (request_id model_name : String)
    (text finish_reason : String)
    (prompt_tokens completion_tokens total_tokens : Option Nat) : List StreamChunk :=
  let tokens := tokenize_for_streaming text
  let usage : Option Usage :=
    if total_tokens.isSome || prompt_tokens.isSome || completion_tokens.isSome then
      some { prompt_tokens := prompt_tokens, completion_tokens := completion_tokens,
             total_tokens := total_tokens }
    else none
  (tokens.enum.map fun p =>
    if p.1 = 0 then create_first_chunk created request_id model_name .Assistant
    else create_content_chunk created request_id model_name p.2)
  ++ [create_final_chunk created request_id model_name
        (parse_finish_reason finish_reason) usage]

/-- The delta.content carried by a chunk's first choice. -/
def chunk_content (c : StreamChunk) : Option String :=
  c.choices.head?.bind fun ch => ch.delta.content

/-- C1: evaluation of MockProvider::stream on the fixture text
"hello world": the code produces only THREE chunks - the role chunk, one
content chunk "world ", and the final chunk.  The first token "hello " is
never emitted, because the stream maps over enumerate and replaces the
index-0 element (the first token) with the role chunk instead of
prepending the role chunk.  The claim (and the spec scenario) require
four chunks with content "hello " then "world ". -/
theorem mock_stream_hello_world_chunks :
    mock_stream_chunks 7 "mock-demo-1" "mock-model" "hello world" "stop"
        (some 2) (some 1) (some 3) =
      [create_first_chunk 7 "mock-demo-1" "mock-model" .Assistant,
       create_content_chunk 7 "mock-demo-1" "mock-model" "world ",
       create_final_chunk 7 "mock-demo-1" "mock-model" .Stop
         (some { prompt_tokens := some 2, completion_tokens := some 1,
                 total_tokens := some 3 })] ∧
    (mock_stream_chunks 7 "mock-demo-1" "mock-model" "hello world" "stop"
        (some 2) (some 1) (some 3)).filterMap chunk_content = ["world "] := by
  constructor <;> rfl

/-! ### main.rs: SSE transcoding of a provider stream (C7) -/

/-- One SSE event payload produced by generate_completion: the serialized
chunk JSON for an Ok item, the serialized in-band error object for an Err
item, and the terminal [DONE] sentinel.  The three payload shapes are
distinct on the wire (two JSON objects and the bare [DONE] literal), which
the constructors mirror. -/
inductive SsePayload where
  | chunkJson (c : StreamChunk)
  | errorJson (message : String)
  | done
deriving DecidableEq

/-- Whether a payload is the [DONE] sentinel. -/
def SsePayload.isDone : SsePayload → Bool
  | .done => true
  | _ => false

/-- The per-item map in generate_completion: Ok chunks are serialized,
Err items become a single in-band error event carrying e.to_string(). -/
def to_sse_event : Except ProviderError StreamChunk → SsePayload
  | .ok c => .chunkJson c
  | .error e => .errorJson (provider_error_message e)

/-- main.rs generate_completion streaming arm: map every provider stream
item to an SSE event, then chain one final [DONE] event.  The provider
stream is modelled as the (finite) list of items it yields. -/
def sse_stream (items : List (Except ProviderError StreamChunk)) : List SsePayload :=
  items.map to_sse_event ++ [.done]

/-- C7: the SSE event sequence ends with exactly one [DONE] event, emitted
after every chunk event and never before any of them; an adapter error
item is emitted as a single in-band error event at its position, the
stream continues after it, and it never suppresses the terminal [DONE]. -/
theorem sse_stream_done_terminal (items : List (Except ProviderError StreamChunk)) :
    (sse_stream items).length = items.length + 1 ∧
    (sse_stream items).countP (fun p => p.isDone) = 1 ∧
    (sse_stream items).getLast? = some .done ∧
    (∀ i : Nat, i < items.length →
      (sse_stream items)[i]? = items[i]?.map to_sse_event) ∧
    (∀ (i : Nat) (e : ProviderError), items[i]? = some (Except.error e) →
      (sse_stream items)[i]? = some (.errorJson (provider_error_message e))) := by
  have hmaplen : (items.map to_sse_event).length = items.length := List.length_map _ _
  have hidx : ∀ i : Nat, i < items.length →
      (sse_stream items)[i]? = items[i]?.map to_sse_event := by
    intro i hi
    unfold sse_stream
    rw [List.getElem?_append_left (by rw [hmaplen]; exact hi)]
    exact List.getElem?_map _ _ _
  refine ⟨?_, ?_, ?_, hidx, ?_⟩
  · simp [sse_stream]
  · unfold sse_stream
    rw [List.countP_append]
    have h0 : (items.map to_sse_event).countP (fun p => p.isDone) = 0 := by
      rw [List.countP_eq_zero]
      intro p hp
      obtain ⟨x, -, rfl⟩ := List.mem_map.mp hp
      cases x <;> simp [to_sse_event, SsePayload.isDone]
    rw [h0]
    rfl
  · unfold sse_stream
    rw [List.getLast?_concat]
  · intro i e he
    have hi : i < items.length := by
      by_contra hge
      rw [List.getElem?_eq_none (by omega)] at he
      cases he
    rw [hidx i hi, he]
    rfl

/-- Concrete provider stream with an in-band error between two chunks. -/
def c7DemoItems : List (Except ProviderError StreamChunk) :=
  [.ok (create_first_chunk 0 "id0" "m" .Assistant),
   .error .Timeout,
   .ok (create_content_chunk 0 "id0" "m" "hi ")]

/-- Witness for C7: on a concrete stream the in-band error event appears
at its position and [DONE] is still the last event. -/
theorem sse_stream_done_terminal_witness :
    (sse_stream c7DemoItems)[1]? = some (.errorJson "Request timed out") ∧
    (sse_stream c7DemoItems).getLast? = some .done :=
  ⟨(sse_stream_done_terminal c7DemoItems).2.2.2.2 1 .Timeout rfl,
   (sse_stream_done_terminal c7DemoItems).2.2.1⟩

/-! ### providers/mod.rs: standard_completion_response (C3) -/

/-- providers/mod.rs InferenceResponse (provider-neutral response).
provider_data (a HashMap in the source) is modelled as an association
list. -/
structure InferenceResponse where
  text : String
  model_used : String
  finish_reason : Option FinishReason
  total_tokens : Option Nat
  prompt_tokens : Option Nat
  completion_tokens : Option Nat
  latency_ms : Option Nat
  provider_request_id : Option String
  system_fingerprint : Option String
  tool_calls : Option (List ToolCall)
  logprobs : Option LogProbs
  provider_data : Option (List (String × Json))

/-- models.rs ProviderExtensions. -/
structure ProviderExtensions where
  provider : String
  data : List (String × Json)

/-- models.rs Choice (typed finish_reason revision used by
providers/mod.rs). -/
structure Choice where
  index : Nat
  message : Option Message
  delta : Option Message
  finish_reason : Option FinishReason
  logprobs : Option LogProbs

/-- models.rs CompletionResponse. -/
structure CompletionResponse where
  id : String
  object : String
  created : Nat
  model : String
  choices : List Choice
  usage : Option Usage
  system_fingerprint : Option String
  provider_extensions : Option ProviderExtensions

/-- providers/mod.rs standard_completion_response.  The wall clock
(`created`) and the fresh UUID v7 used when provider_request_id is absent
are parameters. -/
def standard_completion_response (now : Nat) (fresh_uuid : String)
    (response : InferenceResponse) (original_request : CompletionRequest)
    (provider_name : String) : CompletionResponse :=
  let message0 := Message.new .Assistant response.text
  let message :=
    match response.tool_calls with
    | some tcs => { message0 with tool_calls := some tcs }
    | none => message0
  let choice : Choice :=
    { index := 0, message := some message, delta := none,
      finish_reason := response.finish_reason, logprobs := response.logprobs }
  let usage : Option Usage :=
    if response.prompt_tokens.isSome || response.completion_tokens.isSome ||
        response.total_tokens.isSome then
      some { prompt_tokens := response.prompt_tokens,
             completion_tokens := response.completion_tokens,
             total_tokens := response.total_tokens }
    else none
  let provider_extensions : Option ProviderExtensions :=
    match original_request.response_mode with
    | some .Extended =>
      response.provider_data.map fun data =>
        { provider := provider_name, data := data }
    | _ => none
  { id := response.provider_request_id.getD ("chatcmpl-" ++ fresh_uuid)
    object := "chat.completion"
    created := now
    model := response.model_used
    choices := [choice]
    usage := usage
    system_fingerprint := response.system_fingerprint
    provider_extensions := provider_extensions }

/-- CompletionRequest::default(): empty messages, every optional field
None. -/
def blankCompletionRequest : CompletionRequest :=
  { messages := [], model := none, response_mode := none, extensions := none,
    frequency_penalty := none, logit_bias := none, logprobs := none,
    top_logprobs := none, max_tokens := none, n := none,
    presence_penalty := none, response_format := none, seed := none,
    stop := none, stream := none, temperature := none, top_p := none,
    tools := none, tool_choice := none, functions := none,
    function_call := none, user := none }

/-- Neutral response whose provider_data is Some(empty map). -/
def c3EmptyDataResponse : InferenceResponse :=
  { text := "hello", model_used := "mock-model", finish_reason := some .Stop,
    total_tokens := some 3, prompt_tokens := some 2, completion_tokens := some 1,
    latency_ms := none, provider_request_id := some "mock-demo-1",
    system_fingerprint := none, tool_calls := none, logprobs := none,
    provider_data := some [] }

/-- Counterexample to C3 as stated: with response_mode = extended and
provider_data = Some(empty map), standard_completion_response DOES emit
provider_extensions (carrying an empty data map) - the code tests only
presence of provider_data, never non-emptiness. -/
theorem provider_extensions_empty_map_present :
    (standard_completion_response 0 "u1" c3EmptyDataResponse
        { blankCompletionRequest with
            messages := [Message.new .User "hi"],
            response_mode := some .Extended }
        "mock").provider_extensions =
      some { provider := "mock", data := [] } := rfl

/-- C3 (amended): standard_completion_response emits provider_extensions
iff response_mode = extended AND provider_data is present (even when it is
an empty map); when present it carries {provider, data}; a request without
extended mode never carries it. -/
theorem standard_completion_response_extensions_iff
    (now : Nat) (fresh_uuid : String) (r : InferenceResponse)
    (q : CompletionRequest) (p : String) :
    ((standard_completion_response now fresh_uuid r q p).provider_extensions ≠ none ↔
      q.response_mode = some .Extended ∧ r.provider_data ≠ none) ∧
    (∀ d, q.response_mode = some .Extended → r.provider_data = some d →
      (standard_completion_response now fresh_uuid r q p).provider_extensions =
        some { provider := p, data := d }) ∧
    (q.response_mode ≠ some .Extended →
      (standard_completion_response now fresh_uuid r q p).provider_extensions = none) := by
  have hpe : (standard_completion_response now fresh_uuid r q p).provider_extensions =
      (match q.response_mode with
       | some .Extended => r.provider_data.map fun data =>
           ({ provider := p, data := data } : ProviderExtensions)
       | _ => none) := rfl
  refine ⟨?_, ?_, ?_⟩
  · rw [hpe]
    cases hm : q.response_mode with
    | none => simp
    | some m =>
      cases m with
      | Standard => simp
      | Extended =>
        cases hd : r.provider_data with
        | none => simp
        | some d => simp
  · intro d hm hd
    rw [hpe, hm, hd]
    rfl
  · intro hm
    rw [hpe]
    cases hq : q.response_mode with
    | none => rfl
    | some m =>
      cases m with
      | Standard => rfl
      | Extended => exact absurd hq hm

/-- Neutral response with non-empty provider_data (as the mock adapter
produces). -/
def c3ScenarioDataResponse : InferenceResponse :=
  { c3EmptyDataResponse with
      provider_data := some [("scenario", Json.str "demo"),
                             ("mode", Json.str "First")] }

/-- Witness for C3 (amended): extended mode plus present provider_data
yields provider_extensions carrying exactly {provider, data}. -/
theorem standard_completion_response_extensions_iff_witness :
    (standard_completion_response 3 "u2" c3ScenarioDataResponse
        { blankCompletionRequest with
            messages := [Message.new .User "hi"],
            response_mode := some .Extended }
        "mock").provider_extensions =
      some { provider := "mock",
             data := [("scenario", Json.str "demo"), ("mode", Json.str "First")] } :=
  (standard_completion_response_extensions_iff 3 "u2" c3ScenarioDataResponse
      { blankCompletionRequest with
          messages := [Message.new .User "hi"],
          response_mode := some .Extended }
      "mock").2.1 _ rfl rfl

/-! ### main.rs request pipeline and the default extension policy (C2) -/

/-- providers/mod.rs InferenceProvider::validate_extensions (default
implementation): against the adapter's supported_extensions list, a
non-empty map with an empty supported set is rejected naming all keys;
otherwise the first unsupported key is rejected.  The mock and openai
adapters do not override this method nor supported_extensions (whose
default is the empty list). -/
def validate_extensions_default (provider_name : String) (supported : List String)
    (extensions : List (String × Json)) : Except ProviderError Unit :=
  if supported.isEmpty && !extensions.isEmpty then
    .error (.InvalidExtension (String.intercalate ", " (extensions.map Prod.fst))
      ("Provider " ++ provider_name ++ " does not support any extensions"))
  else
    match extensions.find? (fun kv => !(supported.contains kv.1)) with
    | some kv =>
      .error (.InvalidExtension kv.1
        ("Not supported by provider " ++ provider_name))
    | none => .ok ()

/-- main.rs generate_completion, the checks performed before dispatch
(lines 133-151): validate_completion_request, determine_model,
validate_model_allowed on the resolved model, then
validate_provider_capabilities; on success the resolved model is handed to
the adapter (stream or generate). -/
def generate_completion_checks (request : CompletionRequest) (default_model : String)
    (allowed_models : Option (List String)) (supports_streaming : Bool) :
    Except ValidationError String := do
  validate_completion_request request
  let model ← determine_model request.model default_model allowed_models
  validate_model_allowed model allowed_models
  validate_provider_capabilities request supports_streaming
  pure model

/-- A request carrying a non-empty extensions map for the mock adapter. -/
def c2ExtensionsRequest : CompletionRequest :=
  { blankCompletionRequest with
      messages := [Message.new .User "hi"],
      model := some "mock-demo",
      extensions := some [("custom_param", Json.num 1)] }

/-- Counterexample to C2 as stated: a request with a non-empty extensions
map sent to the mock adapter (streaming-capable, empty supported set)
passes every check the handler performs and is dispatched - the handler
never invokes validate_extensions - even though the adapter's default
validate_extensions would reject exactly this map with InvalidExtension. -/
theorem pipeline_dispatches_nonempty_extensions :
    generate_completion_checks c2ExtensionsRequest "mock-default" none true =
      .ok "mock-demo" ∧
    validate_extensions_default "mock" [] [("custom_param", Json.num 1)] =
      .error (.InvalidExtension "custom_param"
        "Provider mock does not support any extensions") :=
  ⟨rfl, rfl⟩

/-- C2 (amended): the default validate_extensions (used by the mock and
openai adapters, whose supported set is empty) rejects any non-empty
extensions map with InvalidExtension naming the offending keys, but the
generate_completion pipeline never invokes it: the pipeline's outcome is
independent of the extensions map, so such requests are dispatched to the
adapter instead of failing before dispatch. -/
theorem extensions_never_checked_in_pipeline :
    (∀ (request : CompletionRequest) (default_model : String)
        (allowed_models : Option (List String)) (supports_streaming : Bool)
        (exts : Option (List (String × Json))),
      generate_completion_checks { request with extensions := exts }
          default_model allowed_models supports_streaming =
        generate_completion_checks request default_model allowed_models
          supports_streaming) ∧
    (∀ (provider_name : String) (exts : List (String × Json)), exts ≠ [] →
      ∃ reason, validate_extensions_default provider_name [] exts =
        .error (.InvalidExtension
          (String.intercalate ", " (exts.map Prod.fst)) reason)) := by
  constructor
  · intro request default_model allowed_models supports_streaming exts
    rfl
  · intro provider_name exts hne
    cases exts with
    | nil => exact absurd rfl hne
    | cons kv rest =>
      exact ⟨"Provider " ++ provider_name ++ " does not support any extensions", rfl⟩

/-- Witness for C2 (amended): concrete instantiations of both parts. -/
theorem extensions_never_checked_in_pipeline_witness :
    (generate_completion_checks
        { c2ExtensionsRequest with extensions := some [("foo", Json.null)] }
        "mock-default" none true =
      generate_completion_checks c2ExtensionsRequest "mock-default" none true) ∧
    ∃ reason, validate_extensions_default "openai" []
        [("a", Json.null), ("b", Json.bool true)] =
      .error (.InvalidExtension "a, b" reason) :=
  ⟨extensions_never_checked_in_pipeline.1 c2ExtensionsRequest "mock-default" none
      true (some [("foo", Json.null)]),
   extensions_never_checked_in_pipeline.2 "openai"
      [("a", Json.null), ("b", Json.bool true)] (by simp)⟩

/-! ### error.rs: ProviderError to HTTP status and OpenAI error body (C6) -/

/-- models.rs OpenAIError (wire error body). -/
structure OpenAIError where
  message : String
  error_type : String
  param : Option String
  code : Option String

/-- error.rs ProviderError::status_code.  StatusCode::from_u16 accepts
100..=999; anything else falls back to INTERNAL_SERVER_ERROR (500). -/
def ProviderError.status_code : ProviderError → Nat
  | .ConnectionFailed _ => 502
  | .InvalidResponse _ => 500
  | .RequestFailed status _ => if 100 ≤ status ∧ status ≤ 999 then status else 500
  | .ModelNotAvailable _ _ => 400
  | .Timeout => 504
  | .Configuration _ => 500
  | .StreamingNotSupported => 400
  | .StreamError _ => 500
  | .InvalidExtension _ _ => 400

/-- error.rs ProviderError::to_openai_error (message interpolation is
modelled with string concatenation; the RequestFailed arm computes the
(error_type, code) pair by matching on the status). -/
def ProviderError.to_openai_error : ProviderError → OpenAIError
  | .ConnectionFailed msg =>
    { message := "Failed to connect to inference provider: " ++ msg,
      error_type := "api_error", param := none,
      code := some "provider_connection_failed" }
  | .InvalidResponse msg =>
    { message := "Invalid response from inference provider: " ++ msg,
      error_type := "api_error", param := none,
      code := some "provider_invalid_response" }
  | .RequestFailed status message =>
    { message := message,
      error_type :=
        if status = 401 then "authentication_error"
        else if status = 403 then "permission_error"
        else if status = 429 then "rate_limit_error"
        else "api_error",
      param := none,
      code := some
        (if status = 401 then "invalid_api_key"
         else if status = 403 then "insufficient_quota"
         else if status = 429 then "rate_limit_exceeded"
         else "provider_error") }
  | .ModelNotAvailable requested available =>
    { message := "Model " ++ requested ++ " is not available. " ++
        (if available.isEmpty then "No models available"
         else "Available models: " ++ String.intercalate ", " available),
      error_type := "invalid_request_error", param := some "model",
      code := some "model_not_found" }
  | .Timeout =>
    { message := "Request to inference provider timed out",
      error_type := "timeout_error", param := none,
      code := some "provider_timeout" }
  | .Configuration msg =>
    { message := "Provider configuration error: " ++ msg,
      error_type := "api_error", param := none,
      code := some "configuration_error" }
  | .StreamingNotSupported =>
    { message := "Streaming is not supported by the current provider",
      error_type := "invalid_request_error", param := some "stream",
      code := some "unsupported_parameter" }
  | .StreamError msg =>
    { message := "Streaming error: " ++ msg,
      error_type := "api_error", param := none,
      code := some "stream_error" }
  | .InvalidExtension param reason =>
    { message := "Invalid extension parameter " ++ param ++ ": " ++ reason,
      error_type := "invalid_request_error", param := some param,
      code := some "invalid_extension" }

/-- C6: for every RequestFailed{status, message} surfaced at the handler
edge, the HTTP status equals `status` with fallback 500 when it is not a
valid HTTP status code; error.type is authentication_error for 401,
permission_error for 403, rate_limit_error for 429, api_error otherwise;
and error.code mirrors the type (it is determined by the same status
match, so equal types always carry equal codes). -/
theorem request_failed_error_mapping (status : Nat) (message : String) :
    (ProviderError.status_code (.RequestFailed status message) =
      if 100 ≤ status ∧ status ≤ 999 then status else 500) ∧
    ((ProviderError.to_openai_error (.RequestFailed status message)).error_type =
      if status = 401 then "authentication_error"
      else if status = 403 then "permission_error"
      else if status = 429 then "rate_limit_error"
      else "api_error") ∧
    ((ProviderError.to_openai_error (.RequestFailed status message)).code =
      some (if status = 401 then "invalid_api_key"
            else if status = 403 then "insufficient_quota"
            else if status = 429 then "rate_limit_exceeded"
            else "provider_error")) ∧
    (∀ (status2 : Nat) (message2 : String),
      (ProviderError.to_openai_error (.RequestFailed status2 message2)).error_type =
        (ProviderError.to_openai_error (.RequestFailed status message)).error_type →
      (ProviderError.to_openai_error (.RequestFailed status2 message2)).code =
        (ProviderError.to_openai_error (.RequestFailed status message)).code) := by
  refine ⟨rfl, rfl, rfl, ?_⟩
  intro status2 message2 h
  simp only [ProviderError.to_openai_error] at h ⊢
  split_ifs at h ⊢ <;> first | rfl | exact absurd h (by decide)

/-- Witness for C6: concrete 429 and invalid-status inputs. -/
theorem request_failed_error_mapping_witness :
    ProviderError.status_code (.RequestFailed 429 "q") = 429 ∧
    (ProviderError.to_openai_error (.RequestFailed 429 "q")).error_type =
      "rate_limit_error" ∧
    (ProviderError.to_openai_error (.RequestFailed 429 "q")).code =
      some "rate_limit_exceeded" ∧
    ProviderError.status_code (.RequestFailed 0 "transport") = 500 ∧
    (ProviderError.to_openai_error (.RequestFailed 429 "other")).code =
      (ProviderError.to_openai_error (.RequestFailed 429 "q")).code := by
  refine ⟨?_, ?_, ?_, ?_, ?_⟩
  · have h := (request_failed_error_mapping 429 "q").1
    simpa using h
  · have h := (request_failed_error_mapping 429 "q").2.1
    simpa using h
  · have h := (request_failed_error_mapping 429 "q").2.2.1
    simpa using h
  · have h := (request_failed_error_mapping 0 "transport").1
    simpa using h
  · exact (request_failed_error_mapping 429 "q").2.2.2 429 "other" rfl

/-! ### providers/mock.rs: fixture loading and response selection (C9) -/

/-- mock.rs ResponseMode (fixture settings.mode). -/
inductive MockMode where
  | First
  | Sequential
  | Random
deriving DecidableEq

/-- mock.rs MockSettings. -/
structure MockSettings where
  mode : MockMode
  chunk_delay_ms : Nat

/-- mock.rs MockResponse (one fixture entry). -/
structure MockResponse where
  text : String
  model_used : String
  prompt_tokens : Option Nat
  completion_tokens : Option Nat
  total_tokens : Option Nat
  finish_reason : String
  delay_ms : Option Nat
  system_fingerprint : Option String
  tool_calls : Option (List ToolCall)
  function_call : Option FunctionCallData
  logprobs : Option LogProbs

/-- mock.rs MockResponseFile (parsed YAML fixture). -/
structure MockResponseFile where
  responses : List MockResponse
  settings : MockSettings

/-- MockProvider::load_file, after the file read: the serde_yml parse is
modelled as the `parsed` oracle (none = read or parse failure, some f =
the parsed file); an empty responses list is rejected with a Configuration
error; on success the file is inserted into the scenario cache (a
mutex-guarded HashMap, modelled as an association list) and returned. -/
def load_file (cache : List (String × MockResponseFile)) (scenario : String)
    (parsed : Option MockResponseFile) :
    Except ProviderError (MockResponseFile × List (String × MockResponseFile)) :=
  match parsed with
  | none => .error (.Configuration "Failed to parse YAML")
  | some response_file =>
    if response_file.responses.isEmpty then
      .error (.Configuration "No responses defined")
    else .ok (response_file, (scenario, response_file) :: cache)

/-- MockProvider::select_response.  `rand_draw` models the value produced
by rng.random_range(0..len) in random mode; a real draw is always < len
when the range is non-empty (random_range panics on an empty range).  The
fixture indexing responses[i] is modelled with the panic-aware `[i]?`:
a none result corresponds to an out-of-bounds panic. -/
def select_response (responses : MockResponseFile) (rand_draw : Nat) :
    Option MockResponse :=
  match responses.settings.mode with
  | .First => responses.responses[0]?
  | .Sequential => responses.responses[0]?
  | .Random =>
    if rand_draw < responses.responses.length then
      responses.responses[rand_draw]?
    else none

/-- C9: every MockResponseFile accepted by load_file has a non-empty
responses list; the cache invariant (every stored file has non-empty
responses) is preserved by every load; and consequently the indexing in
select_response (element 0 in first/sequential modes, any random draw
below the length in random mode) is in bounds and cannot panic. -/
theorem load_file_nonempty_select_in_bounds
    (cache : List (String × MockResponseFile)) (scenario : String)
    (parsed : Option MockResponseFile) (f : MockResponseFile)
    (cache2 : List (String × MockResponseFile))
    (h : load_file cache scenario parsed = .ok (f, cache2)) :
    f.responses ≠ [] ∧
    ((∀ s g, (s, g) ∈ cache → g.responses ≠ []) →
      ∀ s g, (s, g) ∈ cache2 → g.responses ≠ []) ∧
    (∀ rand_draw : Nat, f.settings.mode = .Random →
      rand_draw < f.responses.length → (select_response f rand_draw).isSome) ∧
    (f.settings.mode ≠ .Random → ∀ rand_draw : Nat,
      (select_response f rand_draw).isSome) := by
  have hne : f.responses ≠ [] ∧ cache2 = (scenario, f) :: cache := by
    cases parsed with
    | none => cases h
    | some g =>
      by_cases hg : g.responses.isEmpty
      · rw [load_file, if_pos hg] at h; cases h
      · rw [load_file, if_neg hg] at h
        cases h
        exact ⟨fun hnil => hg (by rw [hnil]; rfl), rfl⟩
  obtain ⟨hne, hcache⟩ := hne
  have hlen : 0 < f.responses.length := List.length_pos.mpr hne
  refine ⟨hne, ?_, ?_, ?_⟩
  · intro hinv s g hmem
    rw [hcache] at hmem
    rcases List.mem_cons.mp hmem with heq | hmem2
    · cases heq; exact hne
    · exact hinv s g hmem2
  · intro rand_draw hmode hdraw
    rw [select_response, hmode, if_pos hdraw]
    simp [List.getElem?_eq_getElem hdraw]
  · intro hmode rand_draw
    rw [select_response]
    cases hm : f.settings.mode with
    | Random => exact absurd hm hmode
    | First => simp [List.getElem?_eq_getElem hlen]
    | Sequential => simp [List.getElem?_eq_getElem hlen]

/-- A concrete parsed fixture with two responses, random mode. -/
def c9Fixture : MockResponseFile :=
  { responses := [
      { text := "hello", model_used := "mock-model",
        prompt_tokens := some 2, completion_tokens := some 1,
        total_tokens := some 3, finish_reason := "stop",
        delay_ms := none, system_fingerprint := none,
        tool_calls := none, function_call := none, logprobs := none },
      { text := "bye", model_used := "mock-model",
        prompt_tokens := none, completion_tokens := none,
        total_tokens := none, finish_reason := "length",
        delay_ms := none, system_fingerprint := none,
        tool_calls := none, function_call := none, logprobs := none }],
    settings := { mode := .Random, chunk_delay_ms := 50 } }

/-- Witness for C9: loading the concrete fixture succeeds, stores it in
the cache, and every random draw below its length selects a response. -/
theorem load_file_nonempty_select_in_bounds_witness :
    load_file [] "demo" (some c9Fixture) =
      .ok (c9Fixture, [("demo", c9Fixture)]) ∧
    c9Fixture.responses ≠ [] ∧ (select_response c9Fixture 1).isSome := by
  have h := load_file_nonempty_select_in_bounds [] "demo" (some c9Fixture)
    c9Fixture [("demo", c9Fixture)] rfl
  exact ⟨rfl, h.1, h.2.2.1 1 rfl (by simp [c9Fixture])⟩

/-! ### providers/openai.rs: build_request_body (C8) -/

/-- providers/mod.rs InferenceRequest (normalized request fed to an
adapter). -/
structure InferenceRequest where
  messages : List Message
  model : String
  max_tokens : Option Nat
  temperature : Option ℚ
  top_p : Option ℚ
  frequency_penalty : Option ℚ
  presence_penalty : Option ℚ
  stop_sequences : Option (List String)
  seed : Option Nat
  stream : Option Bool
  n : Option Nat
  logprobs : Option Bool
  top_logprobs : Option Nat
  user : Option String
  response_format : Option ResponseFormat
  logit_bias : Option (List (String × Json))

/-- serde lowercase rendering of a role. -/
def role_string : Role → String
  | .System => "system"
  | .User => "user"
  | .Assistant => "assistant"
  | .Tool => "tool"

/-- Serialization of a Message for a request body (None fields are
skipped; the nested tool-call fields are not exercised by any claim and
are omitted). -/
def message_to_json (m : Message) : Json :=
  .obj ([("role", .str (role_string m.role))] ++
    (match m.content with | some c => [("content", .str c)] | none => []) ++
    (match m.name with | some s => [("name", .str s)] | none => []) ++
    (match m.tool_call_id with | some s => [("tool_call_id", .str s)] | none => []) ++
    (match m.refusal with | some s => [("refusal", .str s)] | none => []))

/-- serde_json object index-assignment body[key] = v: replace the value
at key when the key is present, otherwise append the pair. -/
def json_set : List (String × Json) → String → Json → List (String × Json)
  | [], k, v => [(k, v)]
  | (k0, v0) :: rest, k, v =>
    if k0 = k then (k, v) :: rest else (k0, v0) :: json_set rest k v

/-- OpenAIProvider::build_request_body, the part before the two
unconditional assignments: model, messages, then every present optional
parameter in source order. -/
def build_request_body_optional (request : InferenceRequest) : List (String × Json) :=
  let body := [("model", Json.str request.model),
               ("messages", Json.arr (request.messages.map message_to_json))]
  let body := match request.max_tokens with
    | some v => json_set body "max_tokens" (.num v) | none => body
  let body := match request.temperature with
    | some t => json_set body "temperature" (.num t) | none => body
  let body := match request.top_p with
    | some t => json_set body "top_p" (.num t) | none => body
  let body := match request.frequency_penalty with
    | some t => json_set body "frequency_penalty" (.num t) | none => body
  let body := match request.presence_penalty with
    | some t => json_set body "presence_penalty" (.num t) | none => body
  let body := match request.stop_sequences with
    | some stop => json_set body "stop" (.arr (stop.map .str)) | none => body
  match request.seed with
  | some s => json_set body "seed" (.num s) | none => body

/-- OpenAIProvider::build_request_body: the optional part followed by the
two unconditional assignments body["n"] = 1 and body["stream"] = false. -/
def build_request_body (request : InferenceRequest) : List (String × Json) :=
  json_set (json_set (build_request_body_optional request) "n" (.num 1))
    "stream" (.bool false)

theorem json_set_lookup_self (l : List (String × Json)) (k : String) (v : Json) :
    (json_set l k v).lookup k = some v := by
  induction l with
  | nil => simp [json_set, List.lookup]
  | cons kv rest ih =>
    obtain ⟨k0, v0⟩ := kv
    by_cases h : k0 = k
    · simp [json_set, h, List.lookup]
    · simp only [json_set, if_neg h, List.lookup]
      have hb : (k == k0) = false := by
        rw [beq_eq_false_iff_ne]
        exact fun he => h he.symm
      rw [hb]
      exact ih

theorem json_set_lookup_ne (l : List (String × Json)) (k k2 : String) (v : Json)
    (h : k ≠ k2) : (json_set l k2 v).lookup k = l.lookup k := by
  have hb : (k == k2) = false := by rw [beq_eq_false_iff_ne]; exact h
  induction l with
  | nil => simp [json_set, List.lookup, hb]
  | cons kv rest ih =>
    obtain ⟨k0, v0⟩ := kv
    by_cases h0 : k0 = k2
    · subst h0
      simp only [json_set, if_pos rfl, List.lookup, hb]
    · simp only [json_set, if_neg h0, List.lookup]
      cases hk : k == k0 with
      | true => rfl
      | false => exact ih

/-- C8: OpenAIProvider::build_request_body always sets n = 1 and
stream = false in the outgoing unary body, for every InferenceRequest
regardless of request.n and request.stream, so a caller-supplied n is
never forwarded to the hosted backend. -/
theorem build_request_body_forces_unary (request : InferenceRequest) :
    (build_request_body request).lookup "n" = some (.num 1) ∧
    (build_request_body request).lookup "stream" = some (.bool false) := by
  unfold build_request_body
  constructor
  · rw [json_set_lookup_ne _ _ _ _ (by decide)]
    exact json_set_lookup_self _ _ _
  · exact json_set_lookup_self _ _ _

/-! ### providers/mod.rs: HttpProviderClient::post_json retry loop (C4) -/

/-- StatusCode::is_success(): 2xx. -/
def is_success (status : Nat) : Bool := 200 ≤ status && status ≤ 299

/-- StatusCode::is_client_error(): 4xx. -/
def is_client_error (status : Nat) : Bool := 400 ≤ status && status ≤ 499

/-- One upstream attempt outcome as seen by post_json: a transport
timeout, a connection failure, another transport error (mapped by
map_reqwest_error to RequestFailed with status 0), or an HTTP response
with its status, body text, and JSON parse result. -/
inductive UpstreamOutcome where
  | timeout
  | connectFailed (message : String)
  | otherTransport (message : String)
  | response (status : Nat) (body : String) (json : Option Json)

/-- The post_json retry loop `for attempt in 0..=max_retries`, with the
upstream modelled as an oracle from attempt number to outcome.  Returns
the result together with the list of back-off sleeps performed (each
iteration with attempt > 0 first sleeps backoff_ms * 2^(attempt-1)).
Timeouts and connection failures retry; other transport errors return
immediately; 2xx parses the JSON (an invalid body returns
InvalidResponse immediately); 4xx returns RequestFailed immediately;
any other status records RequestFailed as last_error and retries.  After
the loop the last error (or a fallback ConnectionFailed) is returned. -/
def post_json_go (oracle : Nat → UpstreamOutcome) (backoff_ms : Nat) :
    Nat → Nat → Option ProviderError → Except ProviderError Json × List Nat
  | 0, _, last_error =>
    (.error (last_error.getD (.ConnectionFailed "All retry attempts exhausted")), [])
  | remaining + 1, attempt, _last_error =>
    let sleeps : List Nat :=
      if attempt = 0 then [] else [backoff_ms * 2 ^ (attempt - 1)]
    match oracle attempt with
    | .timeout =>
      let r := post_json_go oracle backoff_ms remaining (attempt + 1) (some .Timeout)
      (r.1, sleeps ++ r.2)
    | .connectFailed m =>
      let r := post_json_go oracle backoff_ms remaining (attempt + 1)
        (some (.ConnectionFailed ("Connection failed: " ++ m)))
      (r.1, sleeps ++ r.2)
    | .otherTransport m => (.error (.RequestFailed 0 m), sleeps)
    | .response status body json =>
      if is_success status then
        match json with
        | some j => (.ok j, sleeps)
        | none => (.error (.InvalidResponse "Invalid JSON response"), sleeps)
      else if is_client_error status then
        (.error (.RequestFailed status body), sleeps)
      else
        let r := post_json_go oracle backoff_ms remaining (attempt + 1)
          (some (.RequestFailed status body))
        (r.1, sleeps ++ r.2)

/-- HttpProviderClient::post_json: run the loop with max_retries + 1
iterations starting at attempt 0 with no last error. -/
def post_json (max_retries backoff_ms : Nat) (oracle : Nat → UpstreamOutcome) :
    Except ProviderError Json × List Nat :=
  post_json_go oracle backoff_ms (max_retries + 1) 0 none

/-- Outcomes on which the loop retries: timeout, connection failure, or a
response that is neither 2xx nor 4xx. -/
def retryable (o : UpstreamOutcome) : Prop :=
  o = .timeout ∨ (∃ m, o = .connectFailed m) ∨
  ∃ s b j, o = .response s b j ∧ is_success s = false ∧ is_client_error s = false

/-- The last_error recorded when the loop retries on an outcome. -/
def as_retry_error : UpstreamOutcome → ProviderError
  | .timeout => .Timeout
  | .connectFailed m => .ConnectionFailed ("Connection failed: " ++ m)
  | .otherTransport m => .RequestFailed 0 m
  | .response s b _ => .RequestFailed s b

/-- The immediate result when the loop stops on a non-retryable outcome. -/
def stop_result : UpstreamOutcome → Except ProviderError Json
  | .timeout => .error .Timeout
  | .connectFailed m => .error (.ConnectionFailed ("Connection failed: " ++ m))
  | .otherTransport m => .error (.RequestFailed 0 m)
  | .response s b json =>
    if is_success s then
      match json with
      | some j => .ok j
      | none => .error (.InvalidResponse "Invalid JSON response")
    else .error (.RequestFailed s b)

/-- The sleep performed at the top of the iteration numbered `attempt`. -/
def top_sleep (backoff_ms attempt : Nat) : List Nat :=
  if attempt = 0 then [] else [backoff_ms * 2 ^ (attempt - 1)]

theorem go_retry_step (oracle : Nat → UpstreamOutcome) (b rem attempt : Nat)
    (le : Option ProviderError) (hr : retryable (oracle attempt)) :
    post_json_go oracle b (rem + 1) attempt le =
      ((post_json_go oracle b rem (attempt + 1)
          (some (as_retry_error (oracle attempt)))).1,
       top_sleep b attempt ++
         (post_json_go oracle b rem (attempt + 1)
           (some (as_retry_error (oracle attempt)))).2) := by
  rcases hr with h | ⟨m, h⟩ | ⟨s, bd, j, h, hs, hc⟩
  · simp only [post_json_go, h, as_retry_error, top_sleep]
  · simp only [post_json_go, h, as_retry_error, top_sleep]
  · simp only [post_json_go, h, as_retry_error, top_sleep, hs, hc,
      Bool.false_eq_true, if_false]

theorem go_stop_step (oracle : Nat → UpstreamOutcome) (b rem attempt : Nat)
    (le : Option ProviderError) (hns : ¬retryable (oracle attempt)) :
    post_json_go oracle b (rem + 1) attempt le =
      (stop_result (oracle attempt), top_sleep b attempt) := by
  cases ho : oracle attempt with
  | timeout => exact absurd (Or.inl ho) hns
  | connectFailed m => exact absurd (Or.inr (Or.inl ⟨m, ho⟩)) hns
  | otherTransport m => simp only [post_json_go, ho, stop_result, top_sleep]
  | response s bd j =>
    have hnot : ¬(is_success s = false ∧ is_client_error s = false) :=
      fun ⟨h1, h2⟩ => hns (Or.inr (Or.inr ⟨s, bd, j, ho, h1, h2⟩))
    cases hs : is_success s with
    | true =>
      cases j with
      | some jv => simp only [post_json_go, ho, stop_result, top_sleep, hs, if_true]
      | none => simp only [post_json_go, ho, stop_result, top_sleep, hs, if_true]
    | false =>
      have hc : is_client_error s = true := by
        cases hcc : is_client_error s with
        | true => rfl
        | false => exact absurd ⟨hs, hcc⟩ hnot
      simp only [post_json_go, ho, stop_result, top_sleep, hs, hc,
        Bool.false_eq_true, if_false, if_true]

theorem range_pow_shift (b attempt k : Nat) :
    (List.range (k + 1)).map (fun i => b * 2 ^ (attempt + i)) =
      b * 2 ^ attempt :: (List.range k).map (fun i => b * 2 ^ (attempt + 1 + i)) := by
  rw [List.range_succ_eq_map, List.map_cons, List.map_map]
  congr 1
  apply List.map_congr_left
  intro i hi
  simp only [Function.comp_apply]
  have hadd : attempt + Nat.succ i = attempt + 1 + i := by omega
  rw [hadd]

theorem go_stops_at (oracle : Nat → UpstreamOutcome) (b : Nat) :
    ∀ (k : Nat), ∀ (rem attempt : Nat) (le : Option ProviderError),
      k < rem → (∀ i, i < k → retryable (oracle (attempt + i))) →
      ¬retryable (oracle (attempt + k)) →
      post_json_go oracle b rem attempt le =
        (stop_result (oracle (attempt + k)),
         top_sleep b attempt ++
           (List.range k).map (fun i => b * 2 ^ (attempt + i))) := by
  intro k
  induction k with
  | zero =>
    intro rem attempt le hk hpre hstop
    obtain ⟨rem2, rfl⟩ : ∃ rem2, rem = rem2 + 1 := ⟨rem - 1, by omega⟩
    rw [go_stop_step oracle b rem2 attempt le (by simpa using hstop)]
    simp only [Nat.add_zero, List.range_zero, List.map_nil, List.append_nil]
  | succ k ih =>
    intro rem attempt le hk hpre hstop
    obtain ⟨rem2, rfl⟩ : ∃ rem2, rem = rem2 + 1 := ⟨rem - 1, by omega⟩
    rw [go_retry_step oracle b rem2 attempt le (by simpa using hpre 0 (by omega))]
    rw [ih rem2 (attempt + 1) (some (as_retry_error (oracle attempt))) (by omega)
      (fun i hi => by
        have := hpre (i + 1) (by omega)
        rwa [show attempt + (i + 1) = attempt + 1 + i by omega] at this)
      (by rwa [show attempt + 1 + k = attempt + (k + 1) by omega])]
    rw [show attempt + 1 + k = attempt + (k + 1) by omega]
    rw [range_pow_shift]
    have htop : top_sleep b (attempt + 1) = [b * 2 ^ attempt] := by
      simp [top_sleep]
    rw [htop]
    simp

theorem go_exhausts (oracle : Nat → UpstreamOutcome) (b : Nat) :
    ∀ (rem : Nat), ∀ (attempt : Nat) (le : Option ProviderError),
      (∀ i, i < rem + 1 → retryable (oracle (attempt + i))) →
      post_json_go oracle b (rem + 1) attempt le =
        (.error (as_retry_error (oracle (attempt + rem))),
         top_sleep b attempt ++
           (List.range rem).map (fun i => b * 2 ^ (attempt + i))) := by
  intro rem
  induction rem with
  | zero =>
    intro attempt le hall
    rw [go_retry_step oracle b 0 attempt le (by simpa using hall 0 (by omega))]
    simp [post_json_go, Option.getD]
  | succ rem ih =>
    intro attempt le hall
    rw [go_retry_step oracle b (rem + 1) attempt le (by simpa using hall 0 (by omega))]
    rw [ih (attempt + 1) (some (as_retry_error (oracle attempt)))
      (fun i hi => by
        have := hall (i + 1) (by omega)
        rwa [show attempt + (i + 1) = attempt + 1 + i by omega] at this)]
    rw [show attempt + 1 + rem = attempt + (rem + 1) by omega]
    rw [range_pow_shift]
    have htop : top_sleep b (attempt + 1) = [b * 2 ^ attempt] := by
      simp [top_sleep]
    rw [htop]
    simp

theorem go_sleeps_retryable (oracle : Nat → UpstreamOutcome) (b : Nat) :
    ∀ (rem : Nat), ∀ (attempt : Nat) (le : Option ProviderError) (k : Nat),
      k < (post_json_go oracle b rem attempt le).2.length →
      ((attempt = 0 → retryable (oracle k)) ∧
       (1 ≤ attempt → 1 ≤ k → retryable (oracle (attempt + k - 1)))) := by
  intro rem
  induction rem with
  | zero =>
    intro attempt le k hk
    simp [post_json_go] at hk
  | succ rem ih =>
    intro attempt le k hk
    by_cases hr : retryable (oracle attempt)
    · rw [go_retry_step oracle b rem attempt le hr] at hk
      by_cases ha : attempt = 0
      · subst ha
        have hk2 : k < (post_json_go oracle b rem 1
            (some (as_retry_error (oracle 0)))).2.length := by
          simpa [top_sleep] using hk
        constructor
        · intro _
          rcases Nat.eq_zero_or_pos k with rfl | hpos
          · exact hr
          · have h2 := (ih 1 (some (as_retry_error (oracle 0))) k hk2).2
              (by omega) hpos
            simpa using h2
        · intro h1 _
          exact absurd h1 (by omega)
      · constructor
        · intro h0
          exact absurd h0 ha
        · intro _ hk1
          have hk2 : k - 1 < (post_json_go oracle b rem (attempt + 1)
              (some (as_retry_error (oracle attempt)))).2.length := by
            simp only [List.length_append, top_sleep, if_neg ha,
              List.length_singleton] at hk
            omega
          have h2 := ih (attempt + 1) (some (as_retry_error (oracle attempt)))
            (k - 1) hk2
          rcases Nat.eq_zero_or_pos (k - 1) with hz | hpos
          · rw [show attempt + k - 1 = attempt from by omega]
            exact hr
          · have h3 := h2.2 (by omega) hpos
            rwa [show attempt + 1 + (k - 1) - 1 = attempt + k - 1 from by omega] at h3
    · rw [go_stop_step oracle b rem attempt le hr] at hk
      by_cases ha : attempt = 0
      · subst ha
        simp [top_sleep] at hk
      · constructor
        · intro h0
          exact absurd h0 ha
        · intro _ hk1
          simp only [top_sleep, if_neg ha, List.length_singleton] at hk
          omega

/-- C4 (amended): post_json retries only on transport timeout, connection
failure, or an HTTP response that is neither 2xx nor 4xx (this includes
every 5xx, but also 1xx/3xx statuses such as 304); it sleeps
backoff_ms * 2^(attempt-1) before the attempt numbered attempt; any 4xx
response is returned immediately as RequestFailed{status, body} with no
further attempt; and against N consecutive 503s followed by a 200,
post_json returns the JSON iff N <= max_retries, otherwise the last
RequestFailed error. -/
theorem post_json_retry_policy (max_retries backoff_ms : Nat)
    (oracle : Nat → UpstreamOutcome) :
    (∀ (k s : Nat) (bd : String) (j : Option Json),
      k ≤ max_retries → (∀ i, i < k → retryable (oracle i)) →
      oracle k = .response s bd j → is_client_error s = true →
      post_json max_retries backoff_ms oracle =
        (.error (.RequestFailed s bd),
         (List.range k).map (fun a => backoff_ms * 2 ^ a))) ∧
    (∀ k : Nat, k < (post_json max_retries backoff_ms oracle).2.length →
      retryable (oracle k)) ∧
    (∀ (N : Nat) (bd : String) (j : Json),
      (∀ i, i < N → oracle i = .response 503 bd none) →
      (∀ i, N ≤ i → oracle i = .response 200 "" (some j)) →
      (((post_json max_retries backoff_ms oracle).1 = .ok j ↔ N ≤ max_retries) ∧
       (max_retries < N →
        (post_json max_retries backoff_ms oracle).1 =
          .error (.RequestFailed 503 bd)))) := by
  refine ⟨?_, ?_, ?_⟩
  · intro k s bd j hk hpre hok hcl
    have h400 : 400 ≤ s ∧ s ≤ 499 := by simpa [is_client_error] using hcl
    have hns : is_success s = false := by
      simp only [is_success, Bool.and_eq_false_iff]
      simp only [decide_eq_false_iff_not]
      omega
    have hnr : ¬retryable (oracle k) := by
      rw [hok]
      rintro (h | ⟨m, h⟩ | ⟨s2, b2, j2, h, hs2, hc2⟩)
      · cases h
      · cases h
      · injection h with h1 h2 h3
        rw [← h1, hcl] at hc2
        cases hc2
    unfold post_json
    rw [go_stops_at oracle backoff_ms k (max_retries + 1) 0 none (by omega)
      (fun i hi => by simpa using hpre i hi) (by simpa using hnr)]
    simp only [Nat.zero_add, hok, stop_result, hns, Bool.false_eq_true, if_false,
      top_sleep, if_pos, List.nil_append]
  · intro k hk
    exact (go_sleeps_retryable oracle backoff_ms (max_retries + 1) 0 none k hk).1 rfl
  · intro N bd j hlt hge
    by_cases hN : N ≤ max_retries
    · have hres : post_json max_retries backoff_ms oracle =
          (.ok j, (List.range N).map (fun i => backoff_ms * 2 ^ (0 + i))) := by
        unfold post_json
        rw [go_stops_at oracle backoff_ms N (max_retries + 1) 0 none (by omega)
          (fun i hi => by
            rw [Nat.zero_add, hlt i hi]
            exact Or.inr (Or.inr ⟨503, bd, none, rfl, by decide, by decide⟩))
          (by
            rw [Nat.zero_add, hge N le_rfl]
            rintro (h | ⟨m, h⟩ | ⟨s2, b2, j2, h, hs2, hc2⟩)
            · cases h
            · cases h
            · injection h with h1 h2 h3
              rw [← h1] at hs2
              cases hs2)]
        rw [Nat.zero_add, hge N le_rfl]
        simp only [stop_result, top_sleep, if_pos, List.nil_append]
        rfl
      constructor
      · constructor
        · intro _; exact hN
        · intro _; rw [hres]
      · intro hgt; omega
    · have hex : post_json max_retries backoff_ms oracle =
          (.error (.RequestFailed 503 bd),
           top_sleep backoff_ms 0 ++
             (List.range max_retries).map (fun i => backoff_ms * 2 ^ (0 + i))) := by
        unfold post_json
        rw [go_exhausts oracle backoff_ms max_retries 0 none
          (fun i hi => by
            rw [Nat.zero_add, hlt i (by omega)]
            exact Or.inr (Or.inr ⟨503, bd, none, rfl, by decide, by decide⟩))]
        rw [Nat.zero_add, hlt max_retries (by omega)]
        rfl
      constructor
      · constructor
        · intro h
          rw [hex] at h
          cases h
        · intro hle; omega
      · intro _
        rw [hex]

/-- Upstream that answers 304 Not Modified once, then 200 with JSON. -/
def c4Oracle304 : Nat → UpstreamOutcome := fun i =>
  if i = 0 then .response 304 "not modified" none
  else .response 200 "" (some (.str "ok"))

/-- Counterexample to C4 as stated: post_json performs a retry (one
back-off sleep of 250 = backoff_ms * 2^0) after a 304 response, which is
neither a transport timeout, nor a connection failure, nor a 5xx status -
the loop retries on every non-2xx non-4xx status, not only on 5xx. -/
theorem post_json_retries_on_304 :
    post_json 3 250 c4Oracle304 = (.ok (.str "ok"), [250]) ∧
    c4Oracle304 0 = .response 304 "not modified" none ∧
    is_client_error 304 = false ∧
    ¬(500 ≤ 304 ∧ 304 ≤ 599) := by
  refine ⟨rfl, rfl, rfl, by omega⟩

/-- Upstream that always answers 404. -/
def c4Oracle404 : Nat → UpstreamOutcome := fun _ => .response 404 "nf" none

/-- Witness for C4 (amended): a 404 on the first attempt is surfaced
immediately with no back-off sleep. -/
theorem post_json_retry_policy_witness :
    post_json 3 250 c4Oracle404 =
      (.error (.RequestFailed 404 "nf"),
       (List.range 0).map (fun a => 250 * 2 ^ a)) :=
  (post_json_retry_policy 3 250 c4Oracle404).1 0 404 "nf" none (by omega)
    (fun i hi => absurd hi (by omega)) rfl (by decide)
